import Mathlib

/-!
Verification of the YouTubeShortsUploader repository.

This file gives a shallow embedding, in Lean 4, of the parts of the
repository that the specification's claims are about:

* `src/quota_manager.py` — the quota ledger (`QuotaManager`):
  `can_upload`, `use_quota`, `reset_quota`;
* `src/uploader.py` — publish-time conversion
  (`convert_jst_to_utc_iso8601`), request-body construction and metadata
  normalization inside `upload_shorts_video`, and the whole-item retry
  controller `upload_with_retry`;
* `src/batch_uploader.py` — the scheduled batch orchestrator
  `upload_from_csv_scheduled`, with its backup-then-rewrite queue commit.

External collaborators (the YouTube client, the filesystem, the playlist
resolver, the network transfer) are modelled as explicit environment
parameters; fallible steps return `Option`/`Except`; machine-level side
effects (logging, sleeping) are either dropped or recorded in observation
fields (`waits`, `calls`) so that temporal claims can be stated.
-/

/-! ## Python string helpers -/

/-- The whitespace characters removed by Python's `str.strip()`
(ASCII subset, which is all the repository ever feeds it). -/
def isPySpace (c : Char) : Bool :=
  c = ' ' || c = '\t' || c = '\n' || c = '\r' || c = '\x0b' || c = '\x0c'

/-- Python `str.strip()`. -/
def pyStrip (s : String) : String :=
  ⟨((s.data.dropWhile isPySpace).reverse.dropWhile isPySpace).reverse⟩

/-- Python substring containment `needle in hay` on character lists. -/
def listContains (needle : List Char) : List Char → Bool
  | [] => needle.isPrefixOf []
  | c :: rest => needle.isPrefixOf (c :: rest) || listContains needle rest

/-- Python substring containment `needle in hay` on strings. -/
def strContains (hay needle : String) : Bool :=
  listContains needle.data hay.data

/-! ## Quota Ledger (`src/quota_manager.py`, class `QuotaManager`)

The persisted ledger state; `reset_time` is treated separately (see
`reset_quota` below), because `can_upload`/`use_quota` never touch it.
Persistence (`save_quota_state`) is best effort and does not affect the
in-memory state, so it is dropped from the state transition. -/

structure QuotaState where
  current_usage : Nat
  daily_limit : Nat
deriving DecidableEq, Repr

/-- `QuotaManager.API_COSTS` (a Python dict). -/
def apiCost (operation : String) : Option Nat :=
  if operation = "video.insert" then some 1600
  else if operation = "video.list" then some 1
  else if operation = "video.update" then some 50
  else if operation = "channel.list" then some 1
  else none

/-- `QuotaManager.can_upload(cost)`: the admission query
`(current_usage + cost) <= daily_limit` (with an explicit cost; the
Python `cost=None` default resolves to `API_COSTS['video.insert']`,
i.e. 1600). -/
def can_upload (s : QuotaState) (cost : Nat) : Bool :=
  s.current_usage + cost ≤ s.daily_limit

/-- Cost resolution at the top of `QuotaManager.use_quota`:
`if cost is None: cost = self.API_COSTS.get(operation, 0)`. -/
def resolveCost (operation : String) (cost : Option Nat) : Nat :=
  match cost with
  | some c => c
  | none => (apiCost operation).getD 0

/-- `QuotaManager.use_quota(operation, cost)`: returns the Python return
value together with the successor state. -/
def use_quota (s : QuotaState) (operation : String) (cost : Option Nat) :
    Bool × QuotaState :=
  let c := resolveCost operation cost
  if can_upload s c then (true, { s with current_usage := s.current_usage + c })
  else (false, s)

/-- One call in a sequence of `use_quota` invocations. -/
structure QCall where
  operation : String
  cost : Option Nat

/-- The state after a sequence of `use_quota` calls. -/
def runQuotaCalls (s : QuotaState) : List QCall → QuotaState
  | [] => s
  | q :: qs => runQuotaCalls (use_quota s q.operation q.cost).2 qs

/-- The return values of a sequence of `use_quota` calls. -/
def runQuotaResults (s : QuotaState) : List QCall → List Bool
  | [] => []
  | q :: qs =>
    (use_quota s q.operation q.cost).1 ::
      runQuotaResults (use_quota s q.operation q.cost).2 qs

theorem use_quota_fst (s : QuotaState) (op : String) (c : Option Nat) :
    (use_quota s op c).1 = can_upload s (resolveCost op c) := by
  unfold use_quota
  by_cases h : can_upload s (resolveCost op c) = true
  · simp [h]
  · simp [h]

theorem use_quota_limit (s : QuotaState) (op : String) (c : Option Nat) :
    (use_quota s op c).2.daily_limit = s.daily_limit := by
  unfold use_quota
  by_cases h : can_upload s (resolveCost op c) = true
  · simp [h]
  · simp [h]

theorem use_quota_preserves (s : QuotaState) (op : String) (c : Option Nat)
    (h : s.current_usage ≤ s.daily_limit) :
    (use_quota s op c).2.current_usage ≤ (use_quota s op c).2.daily_limit := by
  unfold use_quota
  by_cases hc : can_upload s (resolveCost op c) = true
  · simp only [hc, if_pos]
    simpa [can_upload] using hc
  · simp [hc, h]

theorem use_quota_of_denied (s : QuotaState) (op : String) (c : Option Nat)
    (h : can_upload s (resolveCost op c) = false) :
    (use_quota s op c).2 = s := by
  unfold use_quota
  simp [h]

theorem runQuotaCalls_limit (calls : List QCall) (s : QuotaState) :
    (runQuotaCalls s calls).daily_limit = s.daily_limit := by
  induction calls generalizing s with
  | nil => rfl
  | cons q qs ih =>
    simpa [runQuotaCalls, use_quota_limit] using
      (ih (use_quota s q.operation q.cost).2).trans
        (use_quota_limit s q.operation q.cost)

theorem runQuotaCalls_preserves (calls : List QCall) (s : QuotaState)
    (h : s.current_usage ≤ s.daily_limit) :
    (runQuotaCalls s calls).current_usage ≤ (runQuotaCalls s calls).daily_limit := by
  induction calls generalizing s with
  | nil => simpa [runQuotaCalls] using h
  | cons q qs ih =>
    have hstep := use_quota_preserves s q.operation q.cost h
    have hlim := use_quota_limit s q.operation q.cost
    simp only [runQuotaCalls]
    exact ih (use_quota s q.operation q.cost).2 (by omega)

theorem runQuotaCalls_append (s : QuotaState) (l1 l2 : List QCall) :
    runQuotaCalls s (l1 ++ l2) = runQuotaCalls (runQuotaCalls s l1) l2 := by
  induction l1 generalizing s with
  | nil => rfl
  | cons q qs ih => simp [runQuotaCalls, ih]

theorem runQuotaResults_get (pre : List QCall) (q : QCall) (suf : List QCall)
    (s : QuotaState) :
    (runQuotaResults s (pre ++ q :: suf)).get? pre.length =
      some (use_quota (runQuotaCalls s pre) q.operation q.cost).1 := by
  induction pre generalizing s with
  | nil => rfl
  | cons p ps ih => simpa [runQuotaResults, runQuotaCalls] using ih _

/-- Claim C4: starting from a state with `used <= limit`, over any sequence
of `use_quota` calls the usage never exceeds the limit at any intermediate
point; each call returns `true` exactly when `can_upload` with the resolved
cost held in the state at the moment of the call; and a call that returns
`false` leaves the state unchanged. -/
theorem use_quota_gate_and_invariant (s : QuotaState)
    (h : s.current_usage ≤ s.daily_limit) (calls : List QCall) :
    (∀ pre suf : List QCall, calls = pre ++ suf →
        (runQuotaCalls s pre).current_usage ≤ s.daily_limit) ∧
    (∀ (pre : List QCall) (q : QCall) (suf : List QCall),
        calls = pre ++ q :: suf →
        ((runQuotaResults s calls).get? pre.length =
            some (can_upload (runQuotaCalls s pre)
                    (resolveCost q.operation q.cost))) ∧
        (can_upload (runQuotaCalls s pre) (resolveCost q.operation q.cost) = false →
            runQuotaCalls s (pre ++ [q]) = runQuotaCalls s pre)) := by
  constructor
  · intro pre suf _
    have := runQuotaCalls_preserves pre s h
    have hlim := runQuotaCalls_limit pre s
    omega
  · intro pre q suf hsplit
    constructor
    · rw [hsplit, runQuotaResults_get, use_quota_fst]
    · intro hdenied
      rw [runQuotaCalls_append]
      simp [runQuotaCalls, use_quota_of_denied _ _ _ hdenied]

/-- Witness for C4 at a concrete ledger and call sequence. -/
theorem use_quota_gate_and_invariant_witness :
    ((0 : Nat) ≤ 10000) ∧
    (runQuotaCalls ⟨0, 10000⟩
        [⟨"video.insert", none⟩, ⟨"video.insert", none⟩]).current_usage ≤ 10000 := by
  refine ⟨by decide, ?_⟩
  have h := (use_quota_gate_and_invariant ⟨0, 10000⟩ (by decide)
      [⟨"video.insert", none⟩, ⟨"video.insert", none⟩]).1
      [⟨"video.insert", none⟩, ⟨"video.insert", none⟩] [] rfl
  exact h

/-! ## Quota reset (`QuotaManager.reset_quota`)

`reset_quota` sets `current_usage = 0` and `reset_time` to today's local
17:00 (`now.replace(hour=17, minute=0, second=0, microsecond=0)`),
advanced by one day when `now >= reset_time`.  A local wall-clock instant
is modelled with an abstract day index plus the in-day fields that
`replace` manipulates. -/

structure PyDateTime where
  day : Nat
  hour : Nat
  minute : Nat
  second : Nat
  micro : Nat
deriving DecidableEq, Repr

/-- Total microseconds; datetime comparison on well-formed values is
comparison of this number. -/
def dtMicros (t : PyDateTime) : Nat :=
  (((t.day * 24 + t.hour) * 60 + t.minute) * 60 + t.second) * 1000000 + t.micro

/-- A well-formed wall-clock value (what `datetime.now()` returns). -/
def dtWF (t : PyDateTime) : Prop :=
  t.hour ≤ 23 ∧ t.minute ≤ 59 ∧ t.second ≤ 59 ∧ t.micro ≤ 999999

/-- `QuotaManager.reset_quota`, as a function of the current usage and the
wall clock: returns the new `(current_usage, reset_time)` pair. -/
def reset_quota (usage : Nat) (now : PyDateTime) : Nat × PyDateTime :=
  let boundary : PyDateTime := ⟨now.day, 17, 0, 0, 0⟩
  let r := if dtMicros boundary ≤ dtMicros now
           then { boundary with day := now.day + 1 }
           else boundary
  (0, r)

/-- Claim C7: after `reset_quota`, usage is 0 and the reset time is strictly
in the future; it is today's 17:00 boundary when that is still ahead of
`now`, and otherwise exactly that boundary advanced by one day. -/
theorem reset_quota_spec (usage : Nat) (now : PyDateTime) (h : dtWF now) :
    (reset_quota usage now).1 = 0 ∧
    dtMicros now < dtMicros (reset_quota usage now).2 ∧
    ((dtMicros now < dtMicros ⟨now.day, 17, 0, 0, 0⟩ ∧
        (reset_quota usage now).2 = ⟨now.day, 17, 0, 0, 0⟩) ∨
     (dtMicros ⟨now.day, 17, 0, 0, 0⟩ ≤ dtMicros now ∧
        (reset_quota usage now).2 = ⟨now.day + 1, 17, 0, 0, 0⟩)) := by
  obtain ⟨h1, h2, h3, h4⟩ := h
  unfold reset_quota
  by_cases hb : dtMicros ⟨now.day, 17, 0, 0, 0⟩ ≤ dtMicros now
  · refine ⟨rfl, ?_, Or.inr ⟨hb, by simp [hb]⟩⟩
    simp only [hb, if_pos]
    unfold dtMicros at *
    simp only at *
    omega
  · refine ⟨rfl, ?_, Or.inl ⟨by omega, by simp [hb]⟩⟩
    simp only [hb, if_neg, if_false]
    omega

/-- Witness for C7 at a concrete wall-clock instant (18:30, past the
boundary, so the reset time moves to the next day). -/
theorem reset_quota_spec_witness :
    dtWF ⟨7, 18, 30, 0, 0⟩ ∧
    (reset_quota 9000 ⟨7, 18, 30, 0, 0⟩).1 = 0 ∧
    dtMicros ⟨7, 18, 30, 0, 0⟩ < dtMicros (reset_quota 9000 ⟨7, 18, 30, 0, 0⟩).2 := by
  have hwf : dtWF ⟨7, 18, 30, 0, 0⟩ := by
    refine ⟨by decide, by decide, by decide, by decide⟩
  have h := reset_quota_spec 9000 ⟨7, 18, 30, 0, 0⟩ hwf
  exact ⟨hwf, h.1, h.2.1⟩

/-! ## Publish-time conversion (`src/uploader.py`, `convert_jst_to_utc_iso8601`)

The Python function strips the input, accepts exactly the formats
`"%Y-%m-%d %H:%M:%S"` (length 19) and `"%Y-%m-%d %H:%M"` (length 16),
interprets the result at UTC+9 and renders it in UTC as
`"%Y-%m-%dT%H:%M:%SZ"`.  For these fixed overall lengths every numeric
field of `strptime` must consume exactly two digits (the year four), so
parsing is fixed width with the usual range checks; `datetime` also
validates the day against the month length and requires year >= 1.
Converting `0001-01-01` before 09:00 underflows the supported range and
raises (`Except.error`) instead of returning. -/

structure JstDT where
  year : Nat
  month : Nat
  day : Nat
  hour : Nat
  minute : Nat
  second : Nat
deriving DecidableEq, Repr

def isLeapYear (y : Nat) : Bool :=
  (y % 4 == 0 && y % 100 != 0) || y % 400 == 0

def daysInMonth (y m : Nat) : Nat :=
  if m = 2 then (if isLeapYear y then 29 else 28)
  else if m = 4 || m = 6 || m = 9 || m = 11 then 30
  else 31

/-- One decimal digit. -/
def digit1 (c : Char) : Option Nat :=
  if c.isDigit then some (c.toNat - 48) else none

/-- Two decimal digits. -/
def digit2 (a b : Char) : Option Nat := do
  let x ← digit1 a
  let y ← digit1 b
  pure (10 * x + y)

/-- Four decimal digits. -/
def digit4 (a b c d : Char) : Option Nat := do
  let x ← digit2 a b
  let y ← digit2 c d
  pure (100 * x + y)

/-- The validation `datetime` performs on the parsed fields. -/
def mkJstDT (y mo d h mi se : Nat) : Option JstDT :=
  if 1 ≤ y ∧ 1 ≤ mo ∧ mo ≤ 12 ∧ 1 ≤ d ∧ d ≤ daysInMonth y mo ∧
     h ≤ 23 ∧ mi ≤ 59 ∧ se ≤ 59
  then some ⟨y, mo, d, h, mi, se⟩ else none

/-- `strptime` on the stripped string under the two accepted formats. -/
def parseJst (cs : List Char) : Option JstDT :=
  match cs with
  | [y1, y2, y3, y4, a1, mo1, mo2, a2, dd1, dd2, sp, hh1, hh2, b1, mi1, mi2, b2, se1, se2] =>
    if a1 = '-' && a2 = '-' && sp = ' ' && b1 = ':' && b2 = ':' then do
      let y ← digit4 y1 y2 y3 y4
      let mo ← digit2 mo1 mo2
      let d ← digit2 dd1 dd2
      let h ← digit2 hh1 hh2
      let mi ← digit2 mi1 mi2
      let se ← digit2 se1 se2
      mkJstDT y mo d h mi se
    else none
  | [y1, y2, y3, y4, a1, mo1, mo2, a2, dd1, dd2, sp, hh1, hh2, b1, mi1, mi2] =>
    if a1 = '-' && a2 = '-' && sp = ' ' && b1 = ':' then do
      let y ← digit4 y1 y2 y3 y4
      let mo ← digit2 mo1 mo2
      let d ← digit2 dd1 dd2
      let h ← digit2 hh1 hh2
      let mi ← digit2 mi1 mi2
      mkJstDT y mo d h mi 0
    else none
  | _ => none

/-- The previous calendar day, `none` below `0001-01-01`. -/
def prevDate (y mo d : Nat) : Option (Nat × Nat × Nat) :=
  if 2 ≤ d then some (y, mo, d - 1)
  else if 2 ≤ mo then some (y, mo - 1, daysInMonth y (mo - 1))
  else if 2 ≤ y then some (y - 1, 12, 31)
  else none

/-- JST-to-UTC shift: subtract nine hours, borrowing a calendar day when
needed; `none` when the result would leave the representable range
(where Python raises `OverflowError`). -/
def subHours9 (t : JstDT) : Option JstDT :=
  if 9 ≤ t.hour then some { t with hour := t.hour - 9 }
  else
    match prevDate t.year t.month t.day with
    | some (y, mo, d) => some ⟨y, mo, d, t.hour + 15, t.minute, t.second⟩
    | none => none

def pad2 (n : Nat) : String :=
  if n < 10 then "0" ++ toString n else toString n

def pad4 (n : Nat) : String :=
  if n < 10 then "000" ++ toString n
  else if n < 100 then "00" ++ toString n
  else if n < 1000 then "0" ++ toString n
  else toString n

/-- `dt_utc.strftime("%Y-%m-%dT%H:%M:%SZ")`. -/
def fmtUtc (t : JstDT) : String :=
  pad4 t.year ++ "-" ++ pad2 t.month ++ "-" ++ pad2 t.day ++ "T" ++
  pad2 t.hour ++ ":" ++ pad2 t.minute ++ ":" ++ pad2 t.second ++ "Z"

/-- `convert_jst_to_utc_iso8601`: `Except.ok none` models the Python
`return None` paths (falsy input, whitespace-only input, parse failure);
`Except.error` models the uncaught `OverflowError` corner. -/
def convert_jst_to_utc_iso8601 (p : String) : Except String (Option String) :=
  if p = "" then .ok none
  else
    let t := pyStrip p
    if t = "" then .ok none
    else
      match parseJst t.data with
      | none => .ok none
      | some dt =>
        match subHours9 dt with
        | none => .error "OverflowError"
        | some u => .ok (some (fmtUtc u))

/-! ## Request body construction (`src/uploader.py`, `upload_shorts_video`)

Before the transfer, `upload_shorts_video` appends the `#Shorts` marker to
title/description when absent, builds the request body, and — when a
truthy `publish_at` converts successfully — sets `status.publishAt` and
coerces a `public` privacy to `private`.  A failed conversion surfaces a
warning and leaves scheduling unset.  The `Bool` paired with the body
records whether that warning was printed. -/

/-- The Python test `'#Shorts' in s or '#shorts' in s`. -/
def shortsMarkerPresent (s : String) : Bool :=
  strContains s "#Shorts" || strContains s "#shorts"

/-- `if '#Shorts' not in title and '#shorts' not in title: title = f"{title} #Shorts"`. -/
def normalizeTitle (t : String) : String :=
  if shortsMarkerPresent t then t else t ++ " #Shorts"

/-- `if '#Shorts' not in description and '#shorts' not in description:
description = f"{description}\n\n#Shorts"`. -/
def normalizeDescription (d : String) : String :=
  if shortsMarkerPresent d then d else d ++ "\n\n#Shorts"

structure Snippet where
  title : String
  description : String
  tags : List String
  categoryId : String
deriving DecidableEq, Repr

structure UploadStatus where
  privacyStatus : String
  selfDeclaredMadeForKids : Bool
  publishAt : Option String
deriving DecidableEq, Repr

structure RequestBody where
  snippet : Snippet
  status : UploadStatus
deriving DecidableEq, Repr

/-- The body-construction phase of `upload_shorts_video` (everything before
the `MediaFileUpload`).  Returns the request body and whether the
bad-publish-time warning was printed; `Except.error` is the uncaught
`OverflowError` corner of the conversion. -/
def buildBody (title description : String) (tags : List String)
    (categoryId privacyStatus : String) (madeForKids : Bool)
    (publishAt : Option String) : Except String (RequestBody × Bool) :=
  let base : RequestBody :=
    { snippet := { title := normalizeTitle title,
                   description := normalizeDescription description,
                   tags := tags, categoryId := categoryId },
      status := { privacyStatus := privacyStatus,
                  selfDeclaredMadeForKids := madeForKids,
                  publishAt := none } }
  match publishAt with
  | none => .ok (base, false)
  | some p =>
    if p = "" then .ok (base, false)
    else
      match convert_jst_to_utc_iso8601 p with
      | .error e => .error e
      | .ok none => .ok (base, true)
      | .ok (some utc) =>
        .ok ({ base with
                status := { privacyStatus :=
                              if privacyStatus = "public" then "private"
                              else privacyStatus,
                            selfDeclaredMadeForKids := madeForKids,
                            publishAt := some utc } }, false)

/-- Claim C6: the scenario-4 conversion is exact, and any successfully
converted publish time with a supplied `public` privacy yields a request
body whose status carries `privacyStatus = "private"` together with the
converted `publishAt`. -/
theorem convert_and_coerce_public (title description : String)
    (tags : List String) (categoryId : String) (madeForKids : Bool)
    (p utc : String)
    (h : convert_jst_to_utc_iso8601 p = .ok (some utc)) :
    convert_jst_to_utc_iso8601 "2025-11-20 10:00:00" =
      .ok (some "2025-11-20T01:00:00Z") ∧
    buildBody title description tags categoryId "public" madeForKids (some p) =
      .ok ({ snippet := { title := normalizeTitle title,
                          description := normalizeDescription description,
                          tags := tags, categoryId := categoryId },
             status := { privacyStatus := "private",
                         selfDeclaredMadeForKids := madeForKids,
                         publishAt := some utc } }, false) := by
  have hp : ¬ (p = "") := by
    intro he
    rw [he] at h
    simp [convert_jst_to_utc_iso8601] at h
  refine ⟨by rfl, ?_⟩
  unfold buildBody
  simp [hp, h]

/-- Witness for C6 at the scenario-4 input. -/
theorem convert_and_coerce_public_witness :
    buildBody "t" "d" [] "22" "public" false (some "2025-11-20 10:00:00") =
      .ok ({ snippet := { title := "t #Shorts", description := "d\n\n#Shorts",
                          tags := [], categoryId := "22" },
             status := { privacyStatus := "private",
                         selfDeclaredMadeForKids := false,
                         publishAt := some "2025-11-20T01:00:00Z" } }, false) := by
  have h := (convert_and_coerce_public "t" "d" [] "22" false
      "2025-11-20 10:00:00" "2025-11-20T01:00:00Z" (by rfl)).2
  simpa [normalizeTitle, normalizeDescription] using h

/-- Claim C8, counterexample: the empty string parses under neither
accepted format (the conversion yields no value), yet because Python's
`if publish_at:` treats `""` as falsy, the scheduling block is skipped
entirely: no `publishAt`, no privacy coercion — and no warning is
surfaced (the warning flag is `false`), contradicting the claim's
"a warning is surfaced" for every unparseable publish-at string. -/
theorem unparsable_publish_at_counterexample :
    convert_jst_to_utc_iso8601 "" = .ok none ∧
    buildBody "t" "d" [] "22" "public" false (some "") =
      .ok ({ snippet := { title := "t #Shorts", description := "d\n\n#Shorts",
                          tags := [], categoryId := "22" },
             status := { privacyStatus := "public",
                         selfDeclaredMadeForKids := false,
                         publishAt := none } }, false) := by
  exact ⟨by rfl, by rfl⟩

/-- Claim C8 as amended: for every non-empty publish-at string that parses
under neither accepted format, the request body carries no `publishAt`,
the privacy state is not coerced, the warning is surfaced (flag `true`),
and the body is otherwise exactly the unscheduled body. -/
theorem unparsable_publish_at_skips_scheduling (p : String) (hp : p ≠ "")
    (hfail : convert_jst_to_utc_iso8601 p = .ok none)
    (title description : String) (tags : List String)
    (categoryId privacyStatus : String) (madeForKids : Bool) :
    buildBody title description tags categoryId privacyStatus madeForKids (some p) =
      .ok ({ snippet := { title := normalizeTitle title,
                          description := normalizeDescription description,
                          tags := tags, categoryId := categoryId },
             status := { privacyStatus := privacyStatus,
                         selfDeclaredMadeForKids := madeForKids,
                         publishAt := none } }, true) := by
  unfold buildBody
  simp [hp, hfail]

/-- Witness for the amended C8 at a concrete malformed publish time. -/
theorem unparsable_publish_at_skips_scheduling_witness :
    buildBody "t" "d" [] "22" "unlisted" false (some "not-a-date") =
      .ok ({ snippet := { title := "t #Shorts", description := "d\n\n#Shorts",
                          tags := [], categoryId := "22" },
             status := { privacyStatus := "unlisted",
                         selfDeclaredMadeForKids := false,
                         publishAt := none } }, true) := by
  have h := unparsable_publish_at_skips_scheduling "not-a-date" (by decide)
      (by rfl) "t" "d" [] "22" "unlisted" false
  simpa [normalizeTitle, normalizeDescription] using h

/-! ## Claim C9: marker normalization -/

theorem listContains_cons (needle : List Char) (c : Char) (l : List Char)
    (h : listContains needle l = true) : listContains needle (c :: l) = true := by
  cases l with
  | nil => simp [listContains] at h ⊢; simp [h]
  | cons x xs => simp [listContains] at h ⊢; exact Or.inr h

theorem listContains_append (needle l r : List Char)
    (h : listContains needle r = true) : listContains needle (l ++ r) = true := by
  induction l with
  | nil => simpa using h
  | cons c cs ih => simpa [List.cons_append] using listContains_cons needle c (cs ++ r) ih

theorem marker_in_title_suffix (t : String) :
    shortsMarkerPresent (t ++ " #Shorts") = true := by
  unfold shortsMarkerPresent strContains
  rw [String.data_append]
  have := listContains_append "#Shorts".data t.data " #Shorts".data (by decide)
  simp [this]

theorem marker_in_description_suffix (d : String) :
    shortsMarkerPresent (d ++ "\n\n#Shorts") = true := by
  unfold shortsMarkerPresent strContains
  rw [String.data_append]
  have := listContains_append "#Shorts".data d.data "\n\n#Shorts".data (by decide)
  simp [this]

/-- Claim C9: after normalization the title and the description each
contain the `#Shorts` (or `#shorts`) marker, and normalization is
idempotent on both fields. -/
theorem normalize_marker_idempotent (t d : String) :
    shortsMarkerPresent (normalizeTitle t) = true ∧
    shortsMarkerPresent (normalizeDescription d) = true ∧
    normalizeTitle (normalizeTitle t) = normalizeTitle t ∧
    normalizeDescription (normalizeDescription d) = normalizeDescription d := by
  have ht : shortsMarkerPresent (normalizeTitle t) = true := by
    unfold normalizeTitle
    by_cases h : shortsMarkerPresent t = true
    · simpa [h]
    · simp only [h, if_false, Bool.not_eq_true] at *
      simpa [h] using marker_in_title_suffix t
  have hd : shortsMarkerPresent (normalizeDescription d) = true := by
    unfold normalizeDescription
    by_cases h : shortsMarkerPresent d = true
    · simpa [h]
    · simp only [h, if_false, Bool.not_eq_true] at *
      simpa [h] using marker_in_description_suffix d
  have fixT : ∀ s : String, shortsMarkerPresent s = true → normalizeTitle s = s := by
    intro s hs
    unfold normalizeTitle
    simp [hs]
  have fixD : ∀ s : String, shortsMarkerPresent s = true → normalizeDescription s = s := by
    intro s hs
    unfold normalizeDescription
    simp [hs]
  exact ⟨ht, hd, fixT _ ht, fixD _ hd⟩

/-! ## Upload session and retry controller (`src/uploader.py`)

The network transfer (the `request.next_chunk()` loop) is abstracted by a
`TransferOutcome`: the whole chunk loop either completes with a remote
video id, raises an `HttpError` carrying a status and an error-details
reason (this includes the chunk loop re-raising after its own bounded
retries), or raises some other exception. -/

inductive TransferOutcome where
  | success (videoId : String)
  | httpErr (status : Nat) (reason : String)
  | otherErr (msg : String)

/-- The dict returned by a successful `upload_shorts_video`. -/
structure UploadResult where
  id : String
  url : String
  studio_url : String
  title : String
  privacy_status : String
deriving DecidableEq, Repr

/-- What one call of `upload_shorts_video` ends in: a returned result
dict, a raised `HttpError`, or another raised exception. -/
inductive UploadEnd where
  | ok (r : UploadResult)
  | raised (status : Nat) (reason : String)
  | exn (msg : String)

/-- One call of `upload_shorts_video`: the request body that was sent (if
the pre-transfer phase did not raise) together with how the call ended.
The YouTube client, the media file and the best-effort playlist add are
external and do not influence these observations. -/
def upload_shorts_video (title description : String) (tags : List String)
    (categoryId privacyStatus : String) (madeForKids : Bool)
    (publishAt : Option String) (transfer : TransferOutcome) :
    Option RequestBody × UploadEnd :=
  match buildBody title description tags categoryId privacyStatus madeForKids publishAt with
  | .error e => (none, .exn e)
  | .ok (body, _warned) =>
    (some body,
      match transfer with
      | .success vid =>
        .ok { id := vid,
              url := "https://youtube.com/shorts/" ++ vid,
              studio_url := "https://studio.youtube.com/video/" ++ vid ++ "/edit",
              title := normalizeTitle title,
              privacy_status := privacyStatus }
      | .httpErr s r => .raised s r
      | .otherErr m => .exn m)

/-- The metadata dict handed to `upload_with_retry` (defaults already
resolved, as at every call site in the repository). -/
structure Metadata where
  title : String
  description : String
  tags : List String
  category_id : String
  privacy_status : String
  made_for_kids : Bool
  publish_at : Option String
  playlist_id : Option String

/-- The request-body construction for a metadata dict. -/
def mdBody (md : Metadata) : Except String (RequestBody × Bool) :=
  buildBody md.title md.description md.tags md.category_id md.privacy_status
    md.made_for_kids md.publish_at

/-- `e.resp.status in [500, 502, 503, 504]`. -/
def transientStatus (s : Nat) : Bool :=
  s == 500 || s == 502 || s == 503 || s == 504

/-- Observations of one `upload_with_retry` run: the returned value, the
backoff waits that were slept (in seconds, in order), and how many remote
insert calls were issued. -/
structure RetryRun where
  result : Option UploadResult
  waits : List Nat
  calls : Nat
deriving DecidableEq, Repr

/-- The `for attempt in range(max_retries)` loop of `upload_with_retry`.
`rem` is the number of loop iterations left.  A 403/400 with a recognized
reason, a 403/400 with any other reason, and any other non-5xx status all
`break` (the classification collapses to: transient 5xx retries with
exponential backoff `(2 ** attempt) * 5`, every other `HttpError`
aborts); a non-`HttpError` exception waits a fixed 5 seconds and retries
only while attempts remain. -/
def retryAux (env : Nat → TransferOutcome) (md : Metadata) (maxRetries : Nat) :
    Nat → Nat → RetryRun
  | _, 0 => ⟨none, [], 0⟩
  | attempt, rem + 1 =>
    match upload_shorts_video md.title md.description md.tags md.category_id
        md.privacy_status md.made_for_kids md.publish_at (env attempt) with
    | (sent, outcome) =>
      let c := if sent.isSome then 1 else 0
      match outcome with
      | .ok r => ⟨some r, [], c⟩
      | .raised s _ =>
        if transientStatus s then
          let rest := retryAux env md maxRetries (attempt + 1) rem
          ⟨rest.result, 2 ^ attempt * 5 :: rest.waits, c + rest.calls⟩
        else ⟨none, [], c⟩
      | .exn _ =>
        if attempt + 1 < maxRetries then
          let rest := retryAux env md maxRetries (attempt + 1) rem
          ⟨rest.result, 5 :: rest.waits, c + rest.calls⟩
        else ⟨none, [], c⟩

/-- `upload_with_retry(youtube, video_file, metadata, max_retries)`;
falling off the loop returns `None`. -/
def upload_with_retry (env : Nat → TransferOutcome) (md : Metadata)
    (maxRetries : Nat) : RetryRun :=
  retryAux env md maxRetries 0 maxRetries

/-- Claim C5: with the default budget of 3 attempts, if every attempt
fails with a transient remote fault (HTTP status in 500/502/503/504), the
waits slept are exactly `5 * 2 ^ attempt` for attempts 0, 1, 2 — hence
non-decreasing — and after exhausting the attempts the controller returns
the failure value `none` (it is a total function: no exception crosses
its boundary). -/
theorem retry_transient_backoff (md : Metadata)
    (hb : ∃ bw, mdBody md = .ok bw)
    (env : Nat → TransferOutcome)
    (henv : ∀ i, i < 3 → ∃ s r, env i = .httpErr s r ∧ transientStatus s = true) :
    (upload_with_retry env md 3).result = none ∧
    (upload_with_retry env md 3).waits = [5 * 2 ^ 0, 5 * 2 ^ 1, 5 * 2 ^ 2] ∧
    List.Chain' (fun a b => a ≤ b) (upload_with_retry env md 3).waits := by
  obtain ⟨bw, hbw⟩ := hb
  simp only [mdBody] at hbw
  obtain ⟨s0, r0, h0, t0⟩ := henv 0 (by omega)
  obtain ⟨s1, r1, h1, t1⟩ := henv 1 (by omega)
  obtain ⟨s2, r2, h2, t2⟩ := henv 2 (by omega)
  have hrun : upload_with_retry env md 3 = ⟨none, [5, 10, 20], 3⟩ := by
    unfold upload_with_retry
    simp [retryAux, upload_shorts_video, hbw, h0, h1, h2, t0, t1, t2]
  rw [hrun]
  refine ⟨rfl, by norm_num, by simp [List.chain'_cons]⟩

/-- Witness for C5: every attempt answers HTTP 500. -/
theorem retry_transient_backoff_witness :
    (upload_with_retry (fun _ => .httpErr 500 "backendError")
        ⟨"t", "d", [], "22", "public", false, none, none⟩ 3).result = none ∧
    (upload_with_retry (fun _ => .httpErr 500 "backendError")
        ⟨"t", "d", [], "22", "public", false, none, none⟩ 3).waits = [5, 10, 20] := by
  have h := retry_transient_backoff ⟨"t", "d", [], "22", "public", false, none, none⟩
      ⟨_, rfl⟩ (fun _ => .httpErr 500 "backendError")
      (fun i _ => ⟨500, "backendError", rfl, rfl⟩)
  refine ⟨h.1, ?_⟩
  rw [h.2.1]
  norm_num

/-- Claim C10: with a successfully converting publish time and privacy
supplied as `public`, the request body that is sent carries
`privacyStatus = "private"`, yet the success dict reports
`privacy_status = "public"` — the outcome does not reflect the
scheduled-publish coercion. -/
theorem outcome_reports_supplied_privacy (p utc : String)
    (h : convert_jst_to_utc_iso8601 p = .ok (some utc))
    (title description : String) (tags : List String) (categoryId : String)
    (madeForKids : Bool) (vid : String) :
    upload_shorts_video title description tags categoryId "public" madeForKids
        (some p) (.success vid) =
      (some { snippet := { title := normalizeTitle title,
                           description := normalizeDescription description,
                           tags := tags, categoryId := categoryId },
              status := { privacyStatus := "private",
                          selfDeclaredMadeForKids := madeForKids,
                          publishAt := some utc } },
       .ok { id := vid,
             url := "https://youtube.com/shorts/" ++ vid,
             studio_url := "https://studio.youtube.com/video/" ++ vid ++ "/edit",
             title := normalizeTitle title,
             privacy_status := "public" }) := by
  have hp : ¬ (p = "") := by
    intro he
    rw [he] at h
    simp [convert_jst_to_utc_iso8601] at h
  unfold upload_shorts_video buildBody
  simp [hp, h]

/-- Witness for C10 at the scenario-4 publish time. -/
theorem outcome_reports_supplied_privacy_witness :
    upload_shorts_video "t" "d" [] "22" "public" false
        (some "2025-11-20 10:00:00") (.success "vid123") =
      (some { snippet := { title := "t #Shorts", description := "d\n\n#Shorts",
                           tags := [], categoryId := "22" },
              status := { privacyStatus := "private",
                          selfDeclaredMadeForKids := false,
                          publishAt := some "2025-11-20T01:00:00Z" } },
       .ok { id := "vid123",
             url := "https://youtube.com/shorts/vid123",
             studio_url := "https://studio.youtube.com/video/vid123/edit",
             title := "t #Shorts",
             privacy_status := "public" }) := by
  have h := outcome_reports_supplied_privacy "2025-11-20 10:00:00"
      "2025-11-20T01:00:00Z" (by rfl) "t" "d" [] "22" false "vid123"
  simpa [normalizeTitle, normalizeDescription] using h

/-! ## Durable work queue and batch orchestrator
(`src/batch_uploader.py`, `ShortsBatchUploader.upload_from_csv_scheduled`)

A CSV row is the assoc list `csv.DictReader` yields (keys are the header
fieldnames); the queue file is the header schema plus the ordered data
rows; equality of `QueueFile` values models byte-for-byte file equality.
The filesystem slice touched by the run is the queue file and its
`.backup` sibling (`none` when no backup file exists yet). -/

abbrev Row := List (String × String)

structure QueueFile where
  fieldnames : List String
  rows : List Row
deriving DecidableEq, Repr

structure FS where
  queue : QueueFile
  backup : Option QueueFile
deriving DecidableEq, Repr

/-- External collaborators of the run: `os.path.exists` for media files,
`PlaylistManager.get_playlist`, and the remote transfer behaviour for
item `i`, attempt `a`. -/
structure Env where
  fileExists : String → Bool
  resolvePlaylist : String → Option String
  transfer : Nat → Nat → TransferOutcome

/-- The `results.append` dicts of the scheduled run. -/
inductive ItemResult where
  | success (file video_id url : String)
  | failed (file error : String)
deriving DecidableEq, Repr

/-- `[tag.strip() for tag in row['tags'].split(',')]`, guarded by
`'tags' in row and row['tags']`. -/
def rowTags (row : Row) : List String :=
  match row.lookup "tags" with
  | some s => if s = "" then [] else (s.splitOn ",").map pyStrip
  | none => []

/-- The playlist resolution step (missing or unresolved names only warn). -/
def rowPlaylist (env : Env) (row : Row) : Option String :=
  match row.lookup "playlist_name" with
  | some s => if s = "" then none else env.resolvePlaylist s
  | none => none

/-- The metadata dict built for one CSV row (`row.get` defaults as in the
source). -/
def rowMetadata (env : Env) (row : Row) : Metadata :=
  { title := (row.lookup "title").getD "",
    description := (row.lookup "description").getD "",
    tags := rowTags row,
    category_id := (row.lookup "category_id").getD "22",
    privacy_status := (row.lookup "privacy_status").getD "public",
    made_for_kids := false,
    publish_at := row.lookup "publish_at",
    playlist_id := rowPlaylist env row }

/-- Processing of one taken row: a missing `file` key raises `KeyError`
(caught by the per-item handler), a missing local media file fails the
item with no remote call, otherwise the item goes to `upload_with_retry`
with the default budget of 3.  The second component counts the remote
insert calls made for this item. -/
def processRow (env : Env) (idx : Nat) (row : Row) : ItemResult × Nat :=
  match row.lookup "file" with
  | none => (.failed "N/A" "'file'", 0)
  | some vf =>
    if env.fileExists vf = false then (.failed vf "File not found", 0)
    else
      let run := upload_with_retry (env.transfer idx) (rowMetadata env row) 3
      match run.result with
      | some r => (.success vf r.id r.url, run.calls)
      | none => (.failed vf "Upload failed", run.calls)

/-- The per-item loop, in row order. -/
def processRows (env : Env) : Nat → List Row → List (ItemResult × Nat)
  | _, [] => []
  | idx, r :: rs => processRow env idx r :: processRows env (idx + 1) rs

/-- The commit step at the end of the run: `shutil.copy2` the queue file
to its `.backup` sibling, then rewrite the queue file with the original
fieldnames and the remaining rows.  The whole step sits in one `try`
block: a backup failure (modelled by `backupOk = false`) raises before
the rewrite is even started, and the caught exception only logs.  A
rewrite failure likewise leaves the (already backed-up) state; the claims
below do not depend on the content of a partially rewritten file.
Returns the filesystem plus whether the rewrite completed. -/
def commitQueue (fs : FS) (remaining : List Row) (backupOk rewriteOk : Bool) :
    FS × Bool :=
  if backupOk then
    if rewriteOk then
      (⟨⟨fs.queue.fieldnames, remaining⟩, some fs.queue⟩, true)
    else (⟨fs.queue, some fs.queue⟩, false)
  else (fs, false)

/-- The summary dict of `upload_from_csv_scheduled`, extended with the
resulting filesystem and the observation fields `remoteCalls` and
`committed`. -/
structure RunResult where
  fs : FS
  success : Bool
  uploaded : Nat
  failedCount : Nat
  remaining : Nat
  results : List ItemResult
  remoteCalls : Nat
  committed : Bool
  errorMsg : Option String
deriving Repr

/-- `ShortsBatchUploader.upload_from_csv_scheduled(csv_file, max_uploads)`.
`csvExists` models `os.path.exists(csv_file)`, `readOk` the CSV read
`try` block; an empty row list returns early ("All uploads completed")
without touching any file. -/
def upload_from_csv_scheduled (fs : FS) (env : Env) (maxUploads : Nat)
    (csvExists readOk backupOk rewriteOk : Bool) : RunResult :=
  if csvExists = false then
    ⟨fs, false, 0, 0, 0, [], 0, false, some "CSV file not found"⟩
  else if readOk = false then
    ⟨fs, false, 0, 0, 0, [], 0, false, some "read failure"⟩
  else if fs.queue.rows.isEmpty then
    ⟨fs, true, 0, 0, 0, [], 0, false, none⟩
  else
    let toProcess := fs.queue.rows.take maxUploads
    let remaining := fs.queue.rows.drop maxUploads
    let processed := processRows env 0 toProcess
    let results := processed.map (fun pr => pr.1)
    let callsTotal := (processed.map (fun pr => pr.2)).sum
    let succ := results.countP (fun r =>
      match r with | .success _ _ _ => true | _ => false)
    let failCount := results.countP (fun r =>
      match r with | .failed _ _ => true | _ => false)
    let cq := commitQueue fs remaining backupOk rewriteOk
    ⟨cq.1, true, succ, failCount, remaining.length, results, callsTotal, cq.2, none⟩

/-- Claim C2: if creating the backup copy fails (the `shutil.copy2` step
raises), the queue file is not rewritten — for every queue content, every
environment, every split point and any outcome of the other fallible
steps, the on-disk queue file after the run is the one from before. -/
theorem backup_failure_preserves_queue (fs : FS) (env : Env) (n : Nat)
    (ce ro rw : Bool) :
    (upload_from_csv_scheduled fs env n ce ro false rw).fs.queue = fs.queue := by
  unfold upload_from_csv_scheduled commitQueue
  cases ce <;> cases ro <;> simp <;> split <;> simp

/-- Concrete run of the C2 statement at a one-row queue. -/
def c2FS : FS := ⟨⟨["file"], [[("file", "a.mp4")]]⟩, none⟩

/-- Evaluation of C2 on a concrete state (the run with a failing backup
step leaves the queue file untouched). -/
theorem backup_failure_preserves_queue_example :
    (upload_from_csv_scheduled c2FS
        ⟨fun _ => false, fun _ => none, fun _ _ => .otherErr "x"⟩
        5 true true false true).fs.queue = c2FS.queue := by
  exact backup_failure_preserves_queue c2FS
    ⟨fun _ => false, fun _ => none, fun _ _ => .otherErr "x"⟩ 5 true true true

/-- Claim C3 as amended (the original claim additionally asserted the
empty-queue case, see the counterexample): for every queue file holding
`K >= 1` data rows and every `max_uploads = n <= K`, a completed
scheduled run rewrites the queue file to exactly the last `K - n` rows in
original order under the original header schema, and the backup file
after commit equals the pre-commit queue file. -/
theorem scheduled_run_commit_spec (fs : FS) (env : Env) (n : Nat)
    (hK : 1 ≤ fs.queue.rows.length) (hn : n ≤ fs.queue.rows.length) :
    ((upload_from_csv_scheduled fs env n true true true true).fs.queue.rows =
        fs.queue.rows.drop n) ∧
    ((upload_from_csv_scheduled fs env n true true true true).fs.queue.rows.length =
        fs.queue.rows.length - n) ∧
    ((upload_from_csv_scheduled fs env n true true true true).fs.queue.fieldnames =
        fs.queue.fieldnames) ∧
    ((upload_from_csv_scheduled fs env n true true true true).fs.backup =
        some fs.queue) ∧
    (upload_from_csv_scheduled fs env n true true true true).committed = true := by
  have hne : fs.queue.rows.isEmpty = false := by
    cases h : fs.queue.rows with
    | nil => rw [h] at hK; simp at hK
    | cons a l => simp [h]
  unfold upload_from_csv_scheduled commitQueue
  simp [hne, List.length_drop]

/-- The empty-queue filesystem used to refute the original C3: the queue
file is present with a header and zero data rows, and a stale backup
from some earlier run sits beside it. -/
def c3FS : FS := ⟨⟨["file"], []⟩, some ⟨["old"], []⟩⟩

def c3Env : Env := ⟨fun _ => false, fun _ => none, fun _ _ => .otherErr "x"⟩

/-- Claim C3, counterexample: with `K = 0` data rows and `n = 0 <= K`,
the run returns early ("all uploads completed") without rewriting the
queue file and without creating a backup, so the backup read after the
run differs from the pre-run queue file. -/
theorem empty_queue_run_counterexample :
    ((0 : Nat) ≤ c3FS.queue.rows.length) ∧
    (upload_from_csv_scheduled c3FS c3Env 0 true true true true).committed = false ∧
    (upload_from_csv_scheduled c3FS c3Env 0 true true true true).fs.backup ≠
      some c3FS.queue := by
  refine ⟨by decide, by rfl, by decide⟩

def c3WFS : FS := ⟨⟨["file"], [[("file", "w.mp4")]]⟩, none⟩

def c3WEnv : Env := ⟨fun _ => true, fun _ => none, fun _ _ => .success "vidW"⟩

/-- Witness for the amended C3 at a one-row queue with `n = 1`. -/
theorem scheduled_run_commit_spec_witness :
    (upload_from_csv_scheduled c3WFS c3WEnv 1 true true true true).fs.queue.rows = [] ∧
    (upload_from_csv_scheduled c3WFS c3WEnv 1 true true true true).fs.backup =
      some c3WFS.queue := by
  have h := scheduled_run_commit_spec c3WFS c3WEnv 1 (by decide) (by decide)
  exact ⟨h.1, h.2.2.2.1⟩

theorem upload_with_retry_calls_pos (e : Nat → TransferOutcome) (md : Metadata)
    (bw : RequestBody × Bool) (hbw : mdBody md = .ok bw) :
    1 ≤ (upload_with_retry e md 3).calls := by
  simp only [mdBody] at hbw
  cases he : e 0 with
  | success vid => simp [upload_with_retry, retryAux, upload_shorts_video, hbw, he]
  | httpErr s r =>
    by_cases ht : transientStatus s = true
    · simp [upload_with_retry, retryAux, upload_shorts_video, hbw, he, ht]
    · simp [upload_with_retry, retryAux, upload_shorts_video, hbw, he, ht]
  | otherErr m =>
    simp [upload_with_retry, retryAux, upload_shorts_video, hbw, he]

/-- The quota ledger of end-to-end scenario 3 (`used = limit - 1`). -/
def c1Quota : QuotaState := ⟨9999, 10000⟩

def c1Row : Row := [("file", "video1.mp4"), ("title", "T")]

def c1FS : FS := ⟨⟨["file", "title"], [c1Row]⟩, none⟩

/-- Environment where the media file exists and the remote service
answers every insert with HTTP 403, reason `quotaExceeded`. -/
def c1Env : Env := ⟨fun _ => true, fun _ => none, fun _ _ => .httpErr 403 "quotaExceeded"⟩

/-- Claim C1, counterexample: with a ledger at `used = limit - 1` the
admission query `can_upload(1600)` is false, yet the scheduled run still
issues a remote insert call for the item (`remoteCalls = 1`, not 0) —
`upload_from_csv_scheduled` never consults the quota ledger — and the
item is recorded with the generic `Upload failed` error, not a distinct
quota-exceeded outcome. -/
theorem no_admission_check_counterexample :
    can_upload c1Quota 1600 = false ∧
    (upload_from_csv_scheduled c1FS c1Env 1 true true true true).remoteCalls = 1 ∧
    (upload_from_csv_scheduled c1FS c1Env 1 true true true true).results =
      [ItemResult.failed "video1.mp4" "Upload failed"] := by
  refine ⟨by decide, by rfl, by rfl⟩

/-- Claim C1 as amended: the scheduled orchestrator performs no admission
check against the quota ledger.  Every taken item whose media file exists
(and whose metadata builds a request body) triggers at least one remote
insert call, whatever the ledger state; its recorded outcome is either a
success or the generic `Upload failed` failure — quota exhaustion is
visible only as a remote 403 `quotaExceeded` fault inside the retry
controller, which aborts the item with no quota-specific record. -/
theorem item_always_attempts_upload (env : Env) (idx : Nat) (row : Row)
    (vf : String) (h1 : row.lookup "file" = some vf)
    (h2 : env.fileExists vf = true)
    (hb : ∃ bw, mdBody (rowMetadata env row) = .ok bw) :
    1 ≤ (processRow env idx row).2 ∧
    ((∃ vid url, (processRow env idx row).1 = ItemResult.success vf vid url) ∨
      (processRow env idx row).1 = ItemResult.failed vf "Upload failed") := by
  obtain ⟨bw, hbw⟩ := hb
  have hc := upload_with_retry_calls_pos (env.transfer idx) (rowMetadata env row) bw hbw
  unfold processRow
  rw [h1]
  simp only [h2]
  cases hr : (upload_with_retry (env.transfer idx) (rowMetadata env row) 3).result with
  | some r =>
    refine ⟨by simp [hr]; exact hc, Or.inl ⟨r.id, r.url, by simp [hr]⟩⟩
  | none =>
    refine ⟨by simp [hr]; exact hc, Or.inr (by simp [hr])⟩

def c1WEnv : Env := ⟨fun _ => true, fun _ => none, fun _ _ => .success "vid123"⟩

/-- Witness for the amended C1 at a concrete row and environment. -/
theorem item_always_attempts_upload_witness :
    1 ≤ (processRow c1WEnv 0 [("file", "a.mp4")]).2 := by
  have h := item_always_attempts_upload c1WEnv 0 [("file", "a.mp4")] "a.mp4"
      (by rfl) (by rfl) ⟨_, rfl⟩
  exact h.1
